import Mathlib

/-!
Verification of the trust-state store of the ockam repository.

The development shallowly embeds the SQL-backed repositories of
`ockam_api/src/identity/identities_repository_sql.rs`,
`ockam_identity/src/identities/storage/change_history_repository_sql.rs`,
`ockam_identity/src/identities/storage/identity_attributes_repository_sql.rs`
and the lifecycle operations of `ockam_api/src/cli_state/mod.rs`.

Each SQL statement executed by the Rust code is translated to a pure
function on a list-of-rows model of the corresponding table.  The table
schemas themselves live in migration files outside the given sources; they
are modelled from the spec, section 6:
`named_identity(identifier, name PK, is_default BOOLEAN)`,
`identity(identifier PK, change_history BLOB)`,
`identity_attributes(identifier PK, attributes BLOB, added INTEGER,
expires INTEGER NULL, attested_by TEXT NULL)`.

Identifiers, names, attribute keys and values are opaque strings in the
code (`Identifier::to_sql` stores `to_string()`, and `Identifier::from_str`
reparses it); they are modelled as `String`, with the parse treated as the
inverse of the print.  Timestamps (`TimestampInSeconds`, a `u64` stored as
SQLite INTEGER) are modelled as `Nat`.  Change-history blobs are opaque
byte vectors, modelled as `List Nat`.
-/

namespace Ockam

/-- Error type of the store layer, following `CliStateError` in
`ockam_api/src/cli_state/mod.rs` lines 46-93.  Driver/IO errors pass
through wrapped (the `Io`/`Serde`/`Ockam` transparent variants); the
payloads that matter to the claims are kept as strings. -/
inductive CliStateError where
  | Io (message : String)
  | Serde (message : String)
  | Ockam (message : String)
  | AlreadyExists (resource name : String)
  | ResourceNotFound (resource name : String)
  | InvalidPath (path : String)
  | EmptyPath
  | InvalidData (message : String)
  | InvalidOperation (message : String)
  | InvalidVersion (version : String)
deriving DecidableEq, Repr

/-- One row of the `named_identity` table (struct `NamedIdentityRow`,
`identities_repository_sql.rs` lines 135-140). -/
structure NamedIdentityRow where
  identifier : String
  name : String
  is_default : Bool
deriving DecidableEq, Repr

/-- The `named_identity` table, as the list of its rows (in insertion
order, which is the order `fetch_optional` / `fetch_all` see rows in). -/
abbrev NamedIdentityTable := List NamedIdentityRow

/-- Message SQLite produces when a bare VALUES list is shorter than the
table's column list. -/
def named_identity_column_count_message : String :=
  "table named_identity has 3 columns but 2 values were supplied"

/-- Embeds `name_identity` (`identities_repository_sql.rs` lines 34-39):
it executes `INSERT OR REPLACE INTO named_identity values (?, ?)` binding
only the identifier and the name.  The `named_identity` table has three
columns, and SQLite rejects a bare two-item VALUES list against a
three-column table at prepare time, so every call fails with the driver
error (wrapped into the transparent `Ockam` variant) and the table is
never changed.  No `AlreadyExists` check is made anywhere on this path. -/
def name_identity (_s : NamedIdentityTable) (_identifier _name : String) :
    Except CliStateError NamedIdentityTable :=
  .error (.Ockam named_identity_column_count_message)

/-- Recognizer for the `AlreadyExists` error kind on the registry result. -/
def isAlreadyExistsError (r : Except CliStateError NamedIdentityTable) : Bool :=
  match r with
  | .error (.AlreadyExists _ _) => true
  | _ => false

/-- First UPDATE of `set_as_default` (lines 44-47):
`UPDATE named_identity SET is_default = ? WHERE identifier = ?` with
`true` bound, i.e. set the target identifier's rows to default. -/
def set_as_default_q1 (s : NamedIdentityTable) (identifier : String) :
    NamedIdentityTable :=
  s.map fun r =>
    if r.identifier = identifier then { r with is_default := true } else r

/-- Second UPDATE of `set_as_default` (lines 50-53):
`UPDATE named_identity SET is_default = ? WHERE identifier <> ?` with
`false` bound, i.e. unset every other identifier's rows. -/
def set_as_default_q2 (s : NamedIdentityTable) (identifier : String) :
    NamedIdentityTable :=
  s.map fun r =>
    if r.identifier = identifier then r else { r with is_default := false }

/-- Embeds `set_as_default` (lines 41-55).  The code acquires a pool
connection into a variable named `transaction`, but never begins a
database transaction and even executes both UPDATE statements on the pool
itself, so each statement autocommits on its own:
`set_as_default_q1` followed by `set_as_default_q2`, with the state after
the first statement being a committed, observable state. -/
def set_as_default (s : NamedIdentityTable) (identifier : String) :
    NamedIdentityTable :=
  set_as_default_q2 (set_as_default_q1 s identifier) identifier

/-- Embeds `set_as_default_by_name` (lines 57-62): the single statement
`UPDATE named_identity SET is_default = ? WHERE name = ?` with `true`
bound.  It only sets the target row's flag; no other row is unset. -/
def set_as_default_by_name (s : NamedIdentityTable) (name : String) :
    NamedIdentityTable :=
  s.map fun r =>
    if r.name = name then { r with is_default := true } else r

/-- Embeds `get_identifier_by_name` (lines 71-78):
`SELECT * FROM named_identity WHERE name=$1` with `fetch_optional`,
returning the first matching row's identifier. -/
def get_identifier_by_name (s : NamedIdentityTable) (name : String) :
    Option String :=
  (s.find? fun r => r.name == name).map (·.identifier)

/-- Embeds `delete_identity_by_name` (lines 64-69): read the identifier
for the name, then `DELETE FROM named_identity where name=?`; returns the
new table and the identifier that was looked up. -/
def delete_identity_by_name (s : NamedIdentityTable) (name : String) :
    NamedIdentityTable × Option String :=
  (s.filter fun r => r.name != name, get_identifier_by_name s name)

/-- Embeds `get_default_identifier` (lines 80-87):
`SELECT * FROM named_identity WHERE is_default=?` with `true` bound and
`fetch_optional`, returning the first default row's identifier. -/
def get_default_identifier (s : NamedIdentityTable) : Option String :=
  (s.find? fun r => r.is_default).map (·.identifier)

/-- Embeds `get_named_identities` (lines 89-93).  The executed SQL is
`SELECT * FROM named_identity WHERE name=$1` with nothing bound for `$1`:
the unbound parameter reads as SQL NULL, and `name = NULL` holds for no
row, so the filter keeps nothing. -/
def get_named_identities (s : NamedIdentityTable) : List NamedIdentityRow :=
  s.filter fun _ => false

/-- Embeds `get_named_identity` (lines 95-102):
`SELECT * FROM named_identity WHERE name=$1` with the name bound and
`fetch_optional`. -/
def get_named_identity (s : NamedIdentityTable) (name : String) :
    Option NamedIdentityRow :=
  s.find? fun r => r.name == name

/-- Number of rows of the table whose `is_default` flag is set. -/
def defaultCount (s : NamedIdentityTable) : Nat :=
  (s.filter fun r => r.is_default).length

/-- The single-default invariant of the spec: at most one row has
`is_default = true`. -/
def atMostOneDefault (s : NamedIdentityTable) : Bool :=
  defaultCount s ≤ 1

/-- One row of the `identity` table (struct `ChangeHistoryRow`,
`change_history_repository_sql.rs` lines 92-96): the identifier and the
exported change-history blob. -/
structure ChangeHistoryRow where
  identifier : String
  change_history : List Nat
deriving DecidableEq, Repr

/-- Entry of attested attributes (`AttributesEntry`): the attribute map
(a `BTreeMap<Vec<u8>, Vec<u8>>`, modelled as an association list with
unique keys), the `added` timestamp, the optional expiry and the optional
attesting identifier. -/
structure AttributesEntry where
  attrs : List (String × String)
  added : Nat
  expires : Option Nat
  attested_by : Option String
deriving DecidableEq, Repr

/-- One row of the `identity_attributes` table (struct
`IdentityAttributesRow`, `identity_attributes_repository_sql.rs` lines
94-101).  The `attributes` column holds the minicbor encoding of the
attribute map; encoding and decoding are inverse, so the model stores the
map itself. -/
structure IdentityAttributesRow where
  identifier : String
  attributes : List (String × String)
  added : Nat
  expires : Option Nat
  attested_by : Option String
deriving DecidableEq, Repr

/-- The `attributes()` conversion of a row back to an `AttributesEntry`
(`identity_attributes_repository_sql.rs` lines 108-125). -/
def IdentityAttributesRow.attributesEntry (r : IdentityAttributesRow) :
    AttributesEntry :=
  ⟨r.attributes, r.added, r.expires, r.attested_by⟩

/-- The state shared by the change-history repository and the identity
attributes repository: both tables of the one underlying database. -/
structure IdentityDb where
  identity : List ChangeHistoryRow
  identity_attributes : List IdentityAttributesRow
deriving DecidableEq, Repr

/-- Embeds `get_change_history_optional`
(`change_history_repository_sql.rs` lines 60-71):
`SELECT * FROM identity WHERE identifier=$1` with `fetch_optional`. -/
def get_change_history_optional (db : IdentityDb) (identifier : String) :
    Option (List Nat) :=
  (db.identity.find? fun r => r.identifier == identifier).map
    (·.change_history)

/-- First DELETE of `delete_identity` (`change_history_repository_sql.rs`
line 50): `DELETE FROM identity where identifier=?`. -/
def delete_identity_q1 (db : IdentityDb) (identifier : String) : IdentityDb :=
  { db with identity := db.identity.filter fun r => r.identifier != identifier }

/-- Second DELETE of `delete_identity` (`change_history_repository_sql.rs`
lines 53-55): `DELETE FROM identity_attributes where identifier=?`. -/
def delete_identity_q2 (db : IdentityDb) (identifier : String) : IdentityDb :=
  { db with identity_attributes :=
      db.identity_attributes.filter fun r => r.identifier != identifier }

/-- Embeds `delete_identity` (`change_history_repository_sql.rs` lines
48-58).  As in `set_as_default`, the code acquires a pool connection into
a variable named `transaction` but never begins a transaction, and both
DELETE statements are executed on the pool itself, so each autocommits on
its own; the state after the first DELETE is a committed, observable
state.  On completion both deletions have been applied. -/
def delete_identity (db : IdentityDb) (identifier : String) : IdentityDb :=
  delete_identity_q2 (delete_identity_q1 db identifier) identifier

/-- Embeds `get_attributes` (`identity_attributes_repository_sql.rs`
lines 36-44): `SELECT * FROM identity_attributes WHERE identifier=$1`
with `fetch_optional`, converted through `attributes()`. -/
def get_attributes (db : IdentityDb) (identity : String) :
    Option AttributesEntry :=
  (db.identity_attributes.find? fun r => r.identifier == identity).map
    (·.attributesEntry)

/-- SQLite `INSERT OR REPLACE` on the `identifier` primary key: the row
with a conflicting identifier, if any, is replaced, otherwise the new row
is appended. -/
def insertOrReplaceAttributes :
    List IdentityAttributesRow → IdentityAttributesRow →
    List IdentityAttributesRow
  | [], row => [row]
  | r :: rest, row =>
      if r.identifier = row.identifier then row :: rest
      else r :: insertOrReplaceAttributes rest row

/-- Embeds `put_attributes` (`identity_attributes_repository_sql.rs`
lines 56-64): `INSERT OR REPLACE INTO identity_attributes VALUES
(?, ?, ?, ?, ?)` binding the sender and the four fields of the entry. -/
def put_attributes (db : IdentityDb) (sender : String)
    (entry : AttributesEntry) : IdentityDb :=
  let row : IdentityAttributesRow :=
    ⟨sender, entry.attrs, entry.added, entry.expires, entry.attested_by⟩
  { db with
    identity_attributes := insertOrReplaceAttributes db.identity_attributes row }

/-- `BTreeMap::insert`: set the value for the key, overwriting a previous
binding for the same key. -/
def mapInsert : List (String × String) → String → String →
    List (String × String)
  | [], k, v => [(k, v)]
  | (k0, v0) :: rest, k, v =>
      if k0 = k then (k, v) :: rest else (k0, v0) :: mapInsert rest k v

/-- `BTreeMap::get`: look up the value bound to a key. -/
def mapGet (m : List (String × String)) (k : String) : Option String :=
  (m.find? fun p => p.1 == k).map (·.2)

/-- The read of `put_attribute_value`
(`identity_attributes_repository_sql.rs` lines 76-79): the current
attribute map of the subject, or the empty map when the subject has no
entry. -/
def loadedAttributes (db : IdentityDb) (subject : String) :
    List (String × String) :=
  match get_attributes db subject with
  | some entry => entry.attrs
  | none => []

/-- Embeds `put_attribute_value` (`identity_attributes_repository_sql.rs`
lines 67-85): load the existing attributes (or start empty), insert the
single name/value pair, and persist an entry whose `added` is the current
time, whose `expires` is `None` and whose `attested_by` is the subject
itself, via `put_attributes`.  The clock value `now` is a parameter.  (The
code begins a transaction on the pool but runs both the read and the
write on the pool itself; sequentially the effect is as modelled.) -/
def put_attribute_value (db : IdentityDb)
    (subject attribute_name attribute_value : String) (now : Nat) :
    IdentityDb :=
  put_attributes db subject
    ⟨mapInsert (loadedAttributes db subject) attribute_name attribute_value,
      now, none, some subject⟩

/-- Messages of `is_enrolled` (`cli_state/mod.rs` lines 442-443 and
450-451). -/
def space_message : String :=
  "There should be a default space set for the current user. Please re-enroll"

/-- See `space_message`. -/
def project_message : String :=
  "There should be a default project set for the current user. Please re-enroll"

/-- Embeds `is_enrolled` (`cli_state/mod.rs` lines 435-457).  The three
sub-queries live in repositories outside the given sources, so their
results are parameters: the result of `is_default_identity_enrolled()`
(whose error the `?` operator propagates), and the booleans
`self.spaces.default().is_ok()` and `self.projects.default().is_ok()`.
When the default identity is not enrolled the function returns
`Ok(false)`; a missing default space or project is a hard error built by
`CliStateError::from(&str)`, which is the `InvalidOperation` variant
(`cli_state/mod.rs` lines 95-99); otherwise it returns `Ok(true)`. -/
def is_enrolled (is_default_identity_enrolled : Except CliStateError Bool)
    (default_space_exists default_project_exists : Bool) :
    Except CliStateError Bool :=
  match is_default_identity_enrolled with
  | .error e => .error e
  | .ok false => .ok false
  | .ok true =>
      if !default_space_exists then
        .error (.InvalidOperation space_message)
      else if !default_project_exists then
        .error (.InvalidOperation project_message)
      else .ok true

/-- Filesystem view of the trust-state root directory and its sibling
backup directory, for `backup_and_reset` (`cli_state/mod.rs` lines
315-341).  `originalEntries` are the top-level entries of the root
directory (what `read_dir(&dir)` yields); `backupEntries` those of the
`.bak` sibling; `originalRemoved` records that `delete_at` has removed
the original state; `freshReady` that a fresh root has been set up by the
final re-creation step. -/
structure FsState where
  originalEntries : List String
  originalRemoved : Bool
  backupExists : Bool
  backupEntries : List String
  freshReady : Bool
deriving DecidableEq, Repr

/-- The states of the rename loop of `backup_and_reset` (lines 326-331):
each `std::fs::rename` atomically moves one entry from the root directory
into the backup directory, and each pair lists the remaining root entries
and the accumulated backup entries after one such move.  The second
argument is the content the backup directory already holds when the loop
starts. -/
def moveStates : List String → List String → List (List String × List String)
  | [], _ => []
  | e :: rest, b => (rest, b ++ [e]) :: moveStates rest (b ++ [e])

/-- The sequence of filesystem states traversed by `backup_and_reset`
(lines 315-341), one state per atomic filesystem operation, in program
order:
1. the attempt to remove any prior backup directory (lines 320-322);
2. `create_dir_all` the backup directory (line 323);
3. one state per entry renamed from the root into the backup (326-331);
4. `delete_at` removes the original state (line 334);
5. a fresh root directory is re-created from scratch (line 335).
Step 1 is `if backup_dir.exists() { let _ = std::fs::remove_dir_all(..) }`:
the result of the removal is discarded, so the run continues whether or
not it worked.  `residue` is the list of prior-backup entries still
present after that attempt: `[]` when the removal succeeded (or no backup
existed), up to all of `s.backupEntries` when it failed outright, with
partial removals in between.  `create_dir_all` succeeds on an already
existing directory, so after step 2 the backup directory exists and still
holds `residue`.  The renames then accumulate the root entries next to
the residue (a rename onto a stale entry of the same name replaces it;
the model appends, which agrees on membership).  Failure of step 2 or of
any rename aborts the run via `?`, so the states observable after a
failed run are exactly the proper prefixes of this trace; a completed
run ends in its last state. -/
def backup_and_reset_trace (s : FsState) (residue : List String) :
    List FsState :=
  let cleared : FsState :=
    { s with backupExists := !residue.isEmpty, backupEntries := residue }
  let prepared : FsState := { cleared with backupExists := true }
  let moved : List FsState :=
    (moveStates s.originalEntries residue).map fun p =>
      { prepared with originalEntries := p.1, backupEntries := p.2 }
  let removed : FsState :=
    { prepared with
      originalEntries := []
      backupEntries := residue ++ s.originalEntries
      originalRemoved := true }
  let fresh : FsState :=
    { removed with originalRemoved := false, freshReady := true }
  cleared :: prepared :: (moved ++ [removed, fresh])

theorem find?_filter_not {α : Type} (p : α → Bool) (l : List α) :
    (l.filter fun a => !p a).find? p = none := by
  induction l with
  | nil => rfl
  | cons a t ih =>
    by_cases h : p a = true
    · simp [List.filter_cons, h, ih]
    · simp [List.filter_cons, List.find?_cons, h, ih]

theorem find?_insertOrReplace (l : List IdentityAttributesRow)
    (row : IdentityAttributesRow) :
    (insertOrReplaceAttributes l row).find?
      (fun r => r.identifier == row.identifier) = some row := by
  induction l with
  | nil => simp [insertOrReplaceAttributes, List.find?_cons]
  | cons a t ih =>
    by_cases h : a.identifier = row.identifier
    · simp [insertOrReplaceAttributes, h, List.find?_cons]
    · simp [insertOrReplaceAttributes, h, List.find?_cons, ih]

theorem get_attributes_put_attributes (db : IdentityDb) (sender : String)
    (entry : AttributesEntry) :
    get_attributes (put_attributes db sender entry) sender = some entry := by
  simp only [get_attributes, put_attributes]
  exact (congrArg (Option.map (·.attributesEntry))
    (find?_insertOrReplace db.identity_attributes
      ⟨sender, entry.attrs, entry.added, entry.expires,
        entry.attested_by⟩)).trans rfl

/-- C1: the claim that every state of the named-identity registry
reachable through name_identity / set_as_default / set_as_default_by_name
/ delete_identity_by_name keeps at most one `is_default = true` row fails
on the code.  From the table holding a default row for "I1" and a
non-default row for "I2", the single completed UPDATE of
`set_as_default_by_name "b"` sets the second row's flag without unsetting
the first, leaving two default rows; and the committed state after the
first UPDATE statement of `set_as_default "I2"` (the two statements are
autocommitted separately, not one transaction) likewise shows two
default rows. -/
theorem set_as_default_by_name_two_defaults :
    atMostOneDefault [⟨"I1", "a", true⟩, ⟨"I2", "b", false⟩] = true ∧
    set_as_default_by_name [⟨"I1", "a", true⟩, ⟨"I2", "b", false⟩] "b" =
      [⟨"I1", "a", true⟩, ⟨"I2", "b", true⟩] ∧
    atMostOneDefault
      (set_as_default_by_name [⟨"I1", "a", true⟩, ⟨"I2", "b", false⟩] "b") =
      false ∧
    atMostOneDefault
      (set_as_default_q1 [⟨"I1", "a", true⟩, ⟨"I2", "b", false⟩] "I2") =
      false :=
  ⟨rfl, rfl, rfl, rfl⟩

/-- C2: after `delete_identity identifier`, looking up the change history
returns none and looking up the attributes returns none, for every
database state (in particular for any stored identity row and attribute
rows of that identifier). -/
theorem delete_identity_clears_lookups (db : IdentityDb)
    (identifier : String) :
    get_change_history_optional (delete_identity db identifier) identifier =
      none ∧
    get_attributes (delete_identity db identifier) identifier = none := by
  constructor
  · simp only [get_change_history_optional, delete_identity,
      delete_identity_q1, delete_identity_q2]
    rw [show (fun r : ChangeHistoryRow => r.identifier != identifier) =
        (fun r : ChangeHistoryRow => !(fun r : ChangeHistoryRow =>
          r.identifier == identifier) r) from rfl]
    rw [find?_filter_not]
    rfl
  · simp only [get_attributes, delete_identity, delete_identity_q1,
      delete_identity_q2]
    rw [show (fun r : IdentityAttributesRow => r.identifier != identifier) =
        (fun r : IdentityAttributesRow => !(fun r : IdentityAttributesRow =>
          r.identifier == identifier) r) from rfl]
    rw [find?_filter_not]
    rfl

/-- C3: the claim that `delete_identity` performs its two deletions inside
one database transaction, so that a failure applies neither, fails on the
code: no transaction is ever begun (the acquired connection is closed
unused and both DELETEs autocommit on the pool), so the committed state
after the first DELETE is observable.  At a database holding the identity
row and an attribute row for "I1", that state has the identity row
already removed while the attribute row survives: it differs from both
the initial and the final state, so the cascade is partially applied when
the second statement never runs. -/
theorem delete_identity_first_statement_commits_alone :
    delete_identity_q1
        ⟨[⟨"I1", [1, 2]⟩], [⟨"I1", [("a", "x")], 5, some 9, some "I2"⟩]⟩
        "I1" =
      ⟨[], [⟨"I1", [("a", "x")], 5, some 9, some "I2"⟩]⟩ ∧
    get_change_history_optional
        (delete_identity_q1
          ⟨[⟨"I1", [1, 2]⟩], [⟨"I1", [("a", "x")], 5, some 9, some "I2"⟩]⟩
          "I1") "I1" = none ∧
    get_attributes
        (delete_identity_q1
          ⟨[⟨"I1", [1, 2]⟩], [⟨"I1", [("a", "x")], 5, some 9, some "I2"⟩]⟩
          "I1") "I1" =
      some ⟨[("a", "x")], 5, some 9, some "I2"⟩ ∧
    delete_identity
        ⟨[⟨"I1", [1, 2]⟩], [⟨"I1", [("a", "x")], 5, some 9, some "I2"⟩]⟩
        "I1" =
      ⟨[], []⟩ :=
  ⟨rfl, rfl, rfl, rfl⟩

/-- C6: the claim that `get_named_identities` returns exactly the
surviving rows fails on the code: the SELECT filters on an unbound name
parameter, so a stored row that its sibling `get_named_identity` finds by
name is absent from the returned list, which is always empty. -/
theorem get_named_identities_misses_stored_rows :
    get_named_identity [⟨"I1", "alice", false⟩] "alice" =
      some ⟨"I1", "alice", false⟩ ∧
    get_named_identities [⟨"I1", "alice", false⟩] = [] :=
  ⟨rfl, rfl⟩

/-- C7: the claim that `name_identity` on a taken name fails with the
`AlreadyExists` error carrying the resource kind and the name is false at
the table holding a row named "alice": the call fails with the SQLite
column-count driver error instead, and no `AlreadyExists` error is
produced. -/
theorem name_identity_taken_name_not_already_exists :
    name_identity [⟨"I1", "alice", false⟩] "I2" "alice" =
      .error (.Ockam named_identity_column_count_message) ∧
    isAlreadyExistsError
      (name_identity [⟨"I1", "alice", false⟩] "I2" "alice") = false :=
  ⟨rfl, rfl⟩

/-- C7 (amended): `name_identity` uses `INSERT OR REPLACE`, so it never
checks for a taken name and never produces `AlreadyExists`; as written it
binds two values for the three-column `named_identity` table, so every
call — whether or not the name is taken — fails with the SQLite
column-count error, and the registry is never modified (in particular the
existing row is not replaced). -/
theorem name_identity_never_already_exists (s : NamedIdentityTable)
    (identifier name : String) :
    name_identity s identifier name =
      .error (.Ockam named_identity_column_count_message) ∧
    isAlreadyExistsError (name_identity s identifier name) = false :=
  ⟨rfl, rfl⟩

theorem mapGet_mapInsert_self (m : List (String × String)) (k v : String) :
    mapGet (mapInsert m k v) k = some v := by
  induction m with
  | nil => simp [mapInsert, mapGet, List.find?_cons]
  | cons p t ih =>
    obtain ⟨k0, v0⟩ := p
    by_cases h : k0 = k
    · simp [mapInsert, h, mapGet, List.find?_cons]
    · simp only [mapInsert, if_neg h]
      simpa [mapGet, List.find?_cons, h] using ih

theorem mapGet_mapInsert_other (m : List (String × String)) (k v k' : String)
    (h : k' ≠ k) : mapGet (mapInsert m k v) k' = mapGet m k' := by
  induction m with
  | nil => simp [mapInsert, mapGet, List.find?_cons, Ne.symm h]
  | cons p t ih =>
    obtain ⟨k0, v0⟩ := p
    by_cases h0 : k0 = k
    · simp [mapInsert, h0, mapGet, List.find?_cons, Ne.symm h]
    · simp only [mapInsert, if_neg h0]
      by_cases h1 : k0 = k'
      · simp [mapGet, List.find?_cons, h1]
      · simpa [mapGet, List.find?_cons, h1] using ih

/-- C4: two sequential `put_attribute_value` calls for the same subject
with distinct keys and a monotone clock leave an entry whose map holds
both pairs, whose `added` is the second (later) timestamp, and whose
`attested_by` is the subject itself. -/
theorem put_attribute_value_accumulates (db : IdentityDb)
    (id k1 v1 k2 v2 : String) (t1 t2 : Nat) (hk : k1 ≠ k2) (ht : t1 ≤ t2) :
    ∃ e, get_attributes
        (put_attribute_value (put_attribute_value db id k1 v1 t1) id k2 v2 t2)
        id = some e ∧
      mapGet e.attrs k1 = some v1 ∧ mapGet e.attrs k2 = some v2 ∧
      e.added = t2 ∧ t1 ≤ e.added ∧ e.attested_by = some id := by
  set db1 := put_attribute_value db id k1 v1 t1 with hdb1
  have h1 : get_attributes db1 id =
      some ⟨mapInsert (loadedAttributes db id) k1 v1, t1, none, some id⟩ := by
    rw [hdb1]
    exact get_attributes_put_attributes db id _
  have h2 : loadedAttributes db1 id =
      mapInsert (loadedAttributes db id) k1 v1 := by
    unfold loadedAttributes
    rw [h1]
    rfl
  refine ⟨⟨mapInsert (mapInsert (loadedAttributes db id) k1 v1) k2 v2, t2,
      none, some id⟩, ?_, ?_, ?_, rfl, ht, rfl⟩
  · simp only [put_attribute_value]
    rw [h2]
    exact get_attributes_put_attributes db1 id _
  · rw [mapGet_mapInsert_other _ k2 v2 k1 hk]
    exact mapGet_mapInsert_self _ k1 v1
  · exact mapGet_mapInsert_self _ k2 v2

/-- Witness for C4 at a concrete run: subject "I1", pair "a"/"x" at time 3
then pair "b"/"y" at time 5, starting from the empty database. -/
theorem put_attribute_value_accumulates_witness :
    ("a" : String) ≠ "b" ∧ (3 : Nat) ≤ 5 ∧
    ∃ e, get_attributes
        (put_attribute_value (put_attribute_value ⟨[], []⟩ "I1" "a" "x" 3)
          "I1" "b" "y" 5) "I1" = some e ∧
      mapGet e.attrs "a" = some "x" ∧ mapGet e.attrs "b" = some "y" ∧
      e.added = 5 ∧ 3 ≤ e.added ∧ e.attested_by = some "I1" :=
  ⟨by decide, by decide,
    put_attribute_value_accumulates ⟨[], []⟩ "I1" "a" "x" "b" "y" 3 5
      (by decide) (by decide)⟩

theorem set_as_default_eq_map (s : NamedIdentityTable) (identifier : String) :
    set_as_default s identifier =
      s.map fun r =>
        ⟨r.identifier, r.name, decide (r.identifier = identifier)⟩ := by
  unfold set_as_default set_as_default_q1 set_as_default_q2
  rw [List.map_map]
  congr 1
  funext r
  by_cases h : r.identifier = identifier <;> simp [Function.comp, h]

theorem get_default_of_flagged (l : List NamedIdentityRow) (i : String)
    (h : ∃ r ∈ l, r.identifier = i) :
    get_default_identifier
      (l.map fun r => ⟨r.identifier, r.name, decide (r.identifier = i)⟩) =
      some i := by
  induction l with
  | nil => simp at h
  | cons a t ih =>
    by_cases ha : a.identifier = i
    · simp [get_default_identifier, List.find?_cons, ha]
    · obtain ⟨r, hr, hri⟩ := h
      rcases List.mem_cons.mp hr with rfl | hrt
      · exact absurd hri ha
      · simpa [get_default_identifier, List.find?_cons, ha] using
          ih ⟨r, hrt, hri⟩

/-- C5: for identities X and Y that both have a row in the registry, a
completed `set_as_default X` makes `get_default_identifier` return X, and
a subsequent completed `set_as_default Y` (with Y a different identity)
makes it return Y and no longer X. -/
theorem set_as_default_then_get (s : NamedIdentityTable) (X Y : String)
    (hX : ∃ r ∈ s, r.identifier = X) (hY : ∃ r ∈ s, r.identifier = Y)
    (hXY : X ≠ Y) :
    get_default_identifier (set_as_default s X) = some X ∧
    get_default_identifier (set_as_default (set_as_default s X) Y) =
      some Y ∧
    get_default_identifier (set_as_default (set_as_default s X) Y) ≠
      some X := by
  have hsecond :
      get_default_identifier (set_as_default (set_as_default s X) Y) =
        some Y := by
    rw [set_as_default_eq_map s X, set_as_default_eq_map _ Y, List.map_map]
    have hc : ((fun r : NamedIdentityRow =>
          (⟨r.identifier, r.name, decide (r.identifier = Y)⟩ :
            NamedIdentityRow)) ∘
        (fun r : NamedIdentityRow =>
          (⟨r.identifier, r.name, decide (r.identifier = X)⟩ :
            NamedIdentityRow))) =
        fun r : NamedIdentityRow =>
          (⟨r.identifier, r.name, decide (r.identifier = Y)⟩ :
            NamedIdentityRow) := rfl
    rw [hc]
    exact get_default_of_flagged s Y hY
  refine ⟨?_, hsecond, ?_⟩
  · rw [set_as_default_eq_map s X]
    exact get_default_of_flagged s X hX
  · rw [hsecond]
    intro hc
    exact hXY (Option.some.inj hc).symm

/-- Witness for C5 at a concrete registry: rows for "I1" (named "a") and
"I2" (named "b", currently the default). -/
theorem set_as_default_then_get_witness :
    (∃ r ∈ ([⟨"I1", "a", false⟩, ⟨"I2", "b", true⟩] : NamedIdentityTable),
      r.identifier = "I1") ∧
    (∃ r ∈ ([⟨"I1", "a", false⟩, ⟨"I2", "b", true⟩] : NamedIdentityTable),
      r.identifier = "I2") ∧
    ("I1" : String) ≠ "I2" ∧
    (get_default_identifier
        (set_as_default [⟨"I1", "a", false⟩, ⟨"I2", "b", true⟩] "I1") =
      some "I1" ∧
    get_default_identifier
        (set_as_default
          (set_as_default [⟨"I1", "a", false⟩, ⟨"I2", "b", true⟩] "I1")
          "I2") = some "I2" ∧
    get_default_identifier
        (set_as_default
          (set_as_default [⟨"I1", "a", false⟩, ⟨"I2", "b", true⟩] "I1")
          "I2") ≠ some "I1") :=
  ⟨by decide, by decide, by decide,
    set_as_default_then_get [⟨"I1", "a", false⟩, ⟨"I2", "b", true⟩]
      "I1" "I2" (by decide) (by decide) (by decide)⟩

/-- C8: `is_enrolled` returns Ok(false) without error when the default
identity is not enrolled; when it is enrolled but the default space or
the default project is missing, it returns the corresponding descriptive
`InvalidOperation` error rather than Ok(false); and it returns Ok(true)
exactly when the default identity is enrolled and both the default space
and the default project exist. -/
theorem is_enrolled_precondition_asymmetry :
    (∀ sp pr : Bool, is_enrolled (.ok false) sp pr = .ok false) ∧
    (∀ pr : Bool, is_enrolled (.ok true) false pr =
      .error (.InvalidOperation space_message)) ∧
    is_enrolled (.ok true) true false =
      .error (.InvalidOperation project_message) ∧
    is_enrolled (.ok true) true true = .ok true ∧
    (∀ (a : Except CliStateError Bool) (sp pr : Bool),
      is_enrolled a sp pr = .ok true ↔
        a = .ok true ∧ sp = true ∧ pr = true) := by
  refine ⟨fun _ _ => rfl, fun _ => rfl, rfl, rfl, ?_⟩
  intro a sp pr
  match a with
  | .error e => simp [is_enrolled]
  | .ok false => simp [is_enrolled]
  | .ok true => cases sp <;> cases pr <;> simp [is_enrolled]

/-- C10: `put_attribute_value` always persists an entry whose `expires`
field is `None` and whose `attested_by` is the subject itself, with
`added` set to the current time — whatever expiry or attester the
subject's previous entry recorded, only the attribute map is carried
over. -/
theorem put_attribute_value_resets_provenance (db : IdentityDb)
    (subject attribute_name attribute_value : String) (now : Nat) :
    ∃ e, get_attributes
        (put_attribute_value db subject attribute_name attribute_value now)
        subject = some e ∧
      e.expires = none ∧ e.attested_by = some subject ∧ e.added = now ∧
      e.attrs = mapInsert (loadedAttributes db subject)
        attribute_name attribute_value :=
  ⟨_, get_attributes_put_attributes db subject _, rfl, rfl, rfl, rfl⟩

theorem moveStates_append (l : List String) :
    ∀ (b : List String) (p : List String × List String),
      p ∈ moveStates l b → p.2 ++ p.1 = b ++ l := by
  induction l with
  | nil => intro b p hp; simp [moveStates] at hp
  | cons e rest ih =>
    intro b p hp
    simp only [moveStates, List.mem_cons] at hp
    rcases hp with rfl | hp
    · simp
    · simpa using ih (b ++ [e]) p hp

/-- The five shapes of states on the `backup_and_reset` trace: after the
removal attempt on the prior backup, after creating the backup directory,
after some renames, after `delete_at`, and after the fresh set-up. -/
def traceShape (s : FsState) (residue : List String) (t : FsState) : Prop :=
  t = { s with backupExists := !residue.isEmpty, backupEntries := residue } ∨
  t = { s with backupExists := true, backupEntries := residue } ∨
  (∃ p ∈ moveStates s.originalEntries residue,
    t = { s with backupExists := true, originalEntries := p.1, backupEntries := p.2 }) ∨
  t = { s with backupExists := true, originalEntries := [], backupEntries := residue ++ s.originalEntries, originalRemoved := true } ∨
  t = { s with backupExists := true, originalEntries := [], backupEntries := residue ++ s.originalEntries, originalRemoved := false, freshReady := true }

theorem mem_backup_and_reset_trace (s : FsState) (residue : List String)
    (t : FsState) (ht : t ∈ backup_and_reset_trace s residue) :
    traceShape s residue t := by
  simp only [backup_and_reset_trace, List.mem_cons, List.mem_append,
    List.mem_map, List.mem_singleton] at ht
  rcases ht with rfl | rfl | ⟨⟨p, hp, rfl⟩ | rfl | rfl | h⟩
  · exact Or.inl rfl
  · exact Or.inr (Or.inl rfl)
  · exact Or.inr (Or.inr (Or.inl ⟨p, hp, rfl⟩))
  · exact Or.inr (Or.inr (Or.inr (Or.inl rfl)))
  · exact Or.inr (Or.inr (Or.inr (Or.inr rfl)))
  · cases h

/-- C9: the claim fails on the code at its "clearing any prior backup
first" guarantee.  The removal of the prior backup directory discards its
result (line 321 binds it to an ignored placeholder), and `create_dir_all`
then succeeds on the still-existing directory, so a run in which that
removal failed completes normally: starting from a root holding "a" and a
stale backup holding "old" whose removal fails entirely, the completed
run ends with the backup directory holding the stale "old" next to "a" —
the backup content is not the prior root content, and the prior backup
was never cleared. -/
theorem backup_and_reset_stale_backup_survives :
    (backup_and_reset_trace (FsState.mk ["a"] false true ["old"] false)
        ["old"]).getLast? =
      some (FsState.mk [] false true ["old", "a"] true) ∧
    "old" ∈ (FsState.mk [] false true ["old", "a"] true).backupEntries ∧
    "old" ∉ (FsState.mk ["a"] false true ["old"] false).originalEntries ∧
    (FsState.mk [] false true ["old", "a"] true).backupEntries ≠
      (FsState.mk ["a"] false true ["old"] false).originalEntries := by
  refine ⟨by decide, by decide, by decide, by decide⟩

/-- C9 (amended): staging of `backup_and_reset`, over every state
observable during a run (failed runs stop at a prefix of the trace) and
every outcome `residue` of the ignored removal of the prior backup (the
prior-backup entries that survive the attempt: `[]` when it succeeded, up
to all of them when it failed).  From a Ready state: (1) during
backup-directory preparation — the only steps before any rename, where a
failure aborts the run — the root directory entries are untouched and the
original state is not removed; (2) in any state in which the original
state has been removed, the backup directory exists and holds the
complete prior root content; (3) no entry of the prior root is ever
lost: at every point it is still in the root or already in the backup;
(4) the backup directory only ever holds entries of the prior root or of
the prior backup — when the removal failed, stale prior-backup entries
may survive next to the moved root entries; (5) the fresh root is set up
only once the complete prior content is in the backup; (6) when the
removal did succeed the backup at removal time is exactly the prior root
content. -/
theorem backup_and_reset_moves_before_removal (s : FsState)
    (residue : List String) (hres : ∀ e ∈ residue, e ∈ s.backupEntries)
    (hrem : s.originalRemoved = false) (hfresh : s.freshReady = false) :
    (∀ t ∈ (backup_and_reset_trace s residue).take 2,
      t.originalEntries = s.originalEntries ∧ t.originalRemoved = false) ∧
    (∀ t ∈ backup_and_reset_trace s residue, t.originalRemoved = true →
      t.backupExists = true ∧
        ∀ e ∈ s.originalEntries, e ∈ t.backupEntries) ∧
    (∀ t ∈ backup_and_reset_trace s residue, ∀ e ∈ s.originalEntries,
      e ∈ t.originalEntries ∨ e ∈ t.backupEntries) ∧
    (∀ t ∈ backup_and_reset_trace s residue, ∀ e ∈ t.backupEntries,
      e ∈ s.originalEntries ∨ e ∈ s.backupEntries) ∧
    (∀ t ∈ backup_and_reset_trace s residue, t.freshReady = true →
      ∀ e ∈ s.originalEntries, e ∈ t.backupEntries) ∧
    (residue = [] → ∀ t ∈ backup_and_reset_trace s residue,
      t.originalRemoved = true → t.backupEntries = s.originalEntries) := by
  refine ⟨?_, ?_, ?_, ?_, ?_, ?_⟩
  · intro t ht
    have htake : (backup_and_reset_trace s residue).take 2 =
        [{ s with backupExists := !residue.isEmpty, backupEntries := residue },
          { s with backupExists := true, backupEntries := residue }] := rfl
    rw [htake] at ht
    simp only [List.mem_cons, List.not_mem_nil, or_false] at ht
    rcases ht with rfl | rfl
    · exact ⟨rfl, hrem⟩
    · exact ⟨rfl, hrem⟩
  · intro t ht
    rcases mem_backup_and_reset_trace s residue t ht with rfl | rfl |
      ⟨p, _, rfl⟩ | rfl | rfl
    · intro h; simp [hrem] at h
    · intro h; simp [hrem] at h
    · intro h; simp [hrem] at h
    · exact fun _ => ⟨rfl, fun e he => List.mem_append_right residue he⟩
    · intro h; simp at h
  · intro t ht e he
    rcases mem_backup_and_reset_trace s residue t ht with rfl | rfl |
      ⟨p, hp, rfl⟩ | rfl | rfl
    · exact Or.inl he
    · exact Or.inl he
    · have hap := moveStates_append s.originalEntries residue p hp
      have he2 : e ∈ p.2 ++ p.1 := by
        rw [hap]
        exact List.mem_append_right residue he
      rcases List.mem_append.mp he2 with h2 | h1
      · exact Or.inr h2
      · exact Or.inl h1
    · exact Or.inr (List.mem_append_right residue he)
    · exact Or.inr (List.mem_append_right residue he)
  · intro t ht e he
    rcases mem_backup_and_reset_trace s residue t ht with rfl | rfl |
      ⟨p, hp, rfl⟩ | rfl | rfl
    · exact Or.inr (hres e he)
    · exact Or.inr (hres e he)
    · have hap := moveStates_append s.originalEntries residue p hp
      have he2 : e ∈ residue ++ s.originalEntries := by
        rw [← hap]
        exact List.mem_append_left p.1 he
      rcases List.mem_append.mp he2 with hr | ho
      · exact Or.inr (hres e hr)
      · exact Or.inl ho
    · rcases List.mem_append.mp he with hr | ho
      · exact Or.inr (hres e hr)
      · exact Or.inl ho
    · rcases List.mem_append.mp he with hr | ho
      · exact Or.inr (hres e hr)
      · exact Or.inl ho
  · intro t ht
    rcases mem_backup_and_reset_trace s residue t ht with rfl | rfl |
      ⟨p, _, rfl⟩ | rfl | rfl
    · intro h; simp [hfresh] at h
    · intro h; simp [hfresh] at h
    · intro h; simp [hfresh] at h
    · intro h; simp [hfresh] at h
    · exact fun _ e he => List.mem_append_right residue he
  · rintro rfl t ht
    rcases mem_backup_and_reset_trace s [] t ht with rfl | rfl |
      ⟨p, _, rfl⟩ | rfl | rfl
    · intro h; simp [hrem] at h
    · intro h; simp [hrem] at h
    · intro h; simp [hrem] at h
    · intro _; simp
    · intro h; simp at h

/-- Witness for the amended C9 at a concrete Ready state: a root holding
entries "a" and "b", and a stale backup holding "old" that survives the
ignored removal attempt. -/
theorem backup_and_reset_moves_before_removal_witness :
    (∀ e ∈ (["old"] : List String),
      e ∈ (FsState.mk ["a", "b"] false true ["old"] false).backupEntries) ∧
    (FsState.mk ["a", "b"] false true ["old"] false).originalRemoved =
      false ∧
    (FsState.mk ["a", "b"] false true ["old"] false).freshReady = false ∧
    ((∀ t ∈ (backup_and_reset_trace
        (FsState.mk ["a", "b"] false true ["old"] false) ["old"]).take 2,
      t.originalEntries = ["a", "b"] ∧ t.originalRemoved = false) ∧
    (∀ t ∈ backup_and_reset_trace
        (FsState.mk ["a", "b"] false true ["old"] false) ["old"],
      t.originalRemoved = true → t.backupExists = true ∧
        ∀ e ∈ (["a", "b"] : List String), e ∈ t.backupEntries) ∧
    (∀ t ∈ backup_and_reset_trace
        (FsState.mk ["a", "b"] false true ["old"] false) ["old"],
      ∀ e ∈ (["a", "b"] : List String),
        e ∈ t.originalEntries ∨ e ∈ t.backupEntries) ∧
    (∀ t ∈ backup_and_reset_trace
        (FsState.mk ["a", "b"] false true ["old"] false) ["old"],
      ∀ e ∈ t.backupEntries,
        e ∈ (["a", "b"] : List String) ∨ e ∈ (["old"] : List String)) ∧
    (∀ t ∈ backup_and_reset_trace
        (FsState.mk ["a", "b"] false true ["old"] false) ["old"],
      t.freshReady = true →
        ∀ e ∈ (["a", "b"] : List String), e ∈ t.backupEntries) ∧
    ((["old"] : List String) = [] →
      ∀ t ∈ backup_and_reset_trace
        (FsState.mk ["a", "b"] false true ["old"] false) ["old"],
      t.originalRemoved = true → t.backupEntries = ["a", "b"])) :=
  ⟨by decide, rfl, rfl,
    backup_and_reset_moves_before_removal
      (FsState.mk ["a", "b"] false true ["old"] false) ["old"]
      (by decide) rfl rfl⟩

end Ockam
